import Mathlib

/-!
Verification of the sensor materialization and value-decoding logic of the
`lambda_heat_pumps` Home Assistant integration
(`custom_components/lambda_heat_pumps/sensor.py`).

Python strings are modelled as `List Char`; Python dictionaries as association
lists with first-match lookup; Python `None`-able values as `Option`; the
coordinator's dynamic attributes as explicit structure fields.  Python floats
are modelled as rationals.  A value-accessor outcome is `absent` (Python
`None`), a number, a text label, or a raised exception.
-/

set_option maxRecDepth 4000

namespace LambdaWP

/-- Python strings, modelled as lists of characters. -/
abbrev Str := List Char

/-- Python `str.upper()` (per-character uppercasing, as used on ASCII names). -/
def pyUpper (s : Str) : Str := s.map Char.toUpper

/-- Python `str.lower()`. -/
def pyLower (s : Str) : Str := s.map Char.toLower

/-- Python `str.replace(a, b)` for single-character `a`, `b`. -/
def pyReplaceChar (s : Str) (a b : Char) : Str :=
  s.map fun c => if c = a then b else c

/-- Recursion core of `pyReplace`, structural on a fuel argument so that it
reduces definitionally; the fuel is always instantiated with the length of the
scanned string, which suffices because each step consumes at least one
character. -/
def pyReplaceAux (pat rep : Str) : Nat → Str → Str
  | _, [] => []
  | 0, s => s
  | fuel + 1, c :: rest =>
    if pat ≠ [] ∧ pat <+: (c :: rest) then
      rep ++ pyReplaceAux pat rep fuel ((c :: rest).drop pat.length)
    else
      c :: pyReplaceAux pat rep fuel rest

/-- Python `str.replace(pat, rep)` for a multi-character pattern: replace all
non-overlapping occurrences, scanning left to right.  (The integration never
calls `replace` with an empty pattern; on an empty pattern this model leaves
the string unchanged.) -/
def pyReplace (pat rep s : Str) : Str := pyReplaceAux pat rep s.length s

/-- Python `str.split()` with no arguments: split on whitespace runs, dropping
empty pieces. -/
def pySplitWs (s : Str) : List Str :=
  (s.splitOnP fun c => c.isWhitespace).filter fun t => !t.isEmpty

/-- Python `" ".join(...)`. -/
def pyJoinSpace (l : List Str) : Str := List.intercalate (" ".data) l

/-- Python `dict.get(key)` on an association list (first match wins). -/
def pyGet {α β : Type} [DecidableEq α] : List (α × β) → α → Option β
  | [], _ => none
  | (k, v) :: rest, key => if k = key then some v else pyGet rest key

/-- Python `x or y` for an optional string `x`: `None` and the empty string are
falsy. -/
def pyOrStr (u : Option Str) (d : Str) : Str :=
  match u with
  | some s => if s = [] then d else s
  | none => d

/-- Decimal rendering of a natural number, as Python `f"{n}"`. -/
def natStr (n : Nat) : Str := (Nat.repr n).data

/-- Decimal rendering of an integer, as Python `f"{n}"`. -/
def intStr (n : Int) : Str := (Int.repr n).data

/-- Numeric value of a decimal digit character. -/
def charVal (c : Char) : Nat := c.toNat - 48

/-- Value of a string of decimal digits. -/
def digitsVal (l : Str) : Nat := l.foldl (fun a c => 10 * a + charVal c) 0

/-- Parsing of an unsigned decimal literal (`"12"`, `"12.5"`, `"12."`, `".5"`),
the fragment of Python `float(str)` exercised by register values. -/
def parseUnsignedFloat (s : Str) : Option ℚ :=
  let ip := s.takeWhile Char.isDigit
  let rest := s.dropWhile Char.isDigit
  match rest with
  | [] => if ip = [] then none else some (digitsVal ip)
  | '.' :: frac =>
      if ip = [] ∧ frac = [] then none
      else if frac.all Char.isDigit then
        some ((digitsVal ip : ℚ) + (digitsVal frac : ℚ) / ((10 : ℚ) ^ frac.length))
      else none
  | _ => none

/-- Python `float(str)` on decimal literals with an optional sign; every other
string raises `ValueError`, modelled as `none`. -/
def pyFloatStr (s : Str) : Option ℚ :=
  match s with
  | '-' :: rest => (parseUnsignedFloat rest).map fun q => -q
  | '+' :: rest => parseUnsignedFloat rest
  | _ => parseUnsignedFloat s

/-- Raw values held in the coordinator snapshot: strings or numbers. -/
inductive RawValue where
  | str (s : Str)
  | num (q : ℚ)
deriving DecidableEq

/-- Python `float(value)`: identity on numbers, decimal parsing on strings;
`none` models a raised `ValueError`/`TypeError`. -/
def pyFloat : RawValue → Option ℚ
  | .num q => some q
  | .str s => pyFloatStr s

/-- Python `int(q)` on a float: truncation toward zero. -/
def pyInt (q : ℚ) : Int := if q < 0 then -((-q).floor) else q.floor

/-- Python `f"{value}"` rendering of a raw value.  Only the string case is ever
reached in the decoder (numbers always coerce), so the numeric rendering is a
stand-in. -/
def pyStrOfRaw : RawValue → Str
  | .str s => s
  | .num q => (Int.repr q.num).data

/-- Home Assistant sensor device classes (the ones this platform mentions). -/
inductive SensorDeviceClass where
  | TEMPERATURE
  | POWER
  | ENERGY
  | other (s : Str)
deriving DecidableEq

/-- Home Assistant sensor state classes. -/
inductive SensorStateClass where
  | TOTAL
  | TOTAL_INCREASING
  | MEASUREMENT
deriving DecidableEq

/-- One template entry (`SENSOR_TYPES` / `*_SENSOR_TEMPLATES` value).  Optional
fields model keys that may be missing from the Python dict; `relative_address`
is required for per-instance templates and `address` for general entries. -/
structure SensorInfo where
  name : Str
  relative_address : Nat := 0
  address : Nat := 0
  unit : Option Str := none
  device_class : Option SensorDeviceClass := none
  state_class : Option Str := none
  scale : Option ℚ := none
  data_type : Option Str := none
  device_type : Option Str := none
  txt_mapping : Option Bool := none
  precision : Option ℚ := none
  override_name : Option Str := none
deriving DecidableEq

/-- The recognized `entry.data` configuration options (`none` models a missing
key). -/
structure EntryData where
  num_hps : Option Nat := none
  num_boil : Option Nat := none
  num_buff : Option Nat := none
  num_sol : Option Nat := none
  num_hc : Option Nat := none
  use_legacy_modbus_names : Option Bool := none
  name : Option Str := none
deriving DecidableEq

/-- The slice of the coordinator this platform reads: the config entry it was
created from, the optional `sensor_overrides` attribute (`none` models
`hasattr` being false), the current data snapshot (`none` models a
not-yet-populated snapshot), and the disabled-register predicate. -/
structure Coordinator where
  entry_data : EntryData
  sensor_overrides : Option (List (Str × Str))
  data : Option (List (Str × RawValue))
  is_register_disabled : Nat → Bool

/-- The state of a constructed `LambdaSensor` entity: constructor arguments as
stored, plus the derived `_attr_*` attributes. -/
structure LambdaSensor where
  sensor_id : Str
  attr_name : Str
  attr_unique_id : Str
  entity_id : Str
  unit : Str
  address : Nat
  scale : ℚ
  state_class : Str
  device_class : Option SensorDeviceClass
  relative_address : Nat
  data_type : Option Str
  device_type : Option Str
  txt_mapping : Bool
  precision : Option ℚ
  is_state_sensor : Bool
  attr_device_class : Option SensorDeviceClass
  attr_state_class : Option SensorStateClass
  attr_native_unit_of_measurement : Option Str
  attr_suggested_display_precision : Option ℚ
deriving DecidableEq

/-- `LambdaSensor.__init__`: stores the arguments, applies the `unique_id or
sensor_id` and `entity_id or "sensor." + sensor_id` fallbacks, and derives the
`_attr_*` attributes; a `txt_mapping` (state) sensor clears unit, device class,
state class and precision. -/
def LambdaSensor.init (sensor_id name unit : Str) (address : Nat) (scale : ℚ)
    (state_class : Str) (device_class : Option SensorDeviceClass)
    (relative_address : Nat) (data_type : Option Str) (device_type : Option Str)
    (txt_mapping : Bool) (precision : Option ℚ)
    (entity_id : Option Str) (unique_id : Option Str) : LambdaSensor :=
  { sensor_id := sensor_id
    attr_name := name
    attr_unique_id := pyOrStr unique_id sensor_id
    entity_id := pyOrStr entity_id ("sensor.".data ++ sensor_id)
    unit := unit
    address := address
    scale := scale
    state_class := state_class
    device_class := device_class
    relative_address := relative_address
    data_type := data_type
    device_type := device_type
    txt_mapping := txt_mapping
    precision := precision
    is_state_sensor := txt_mapping
    attr_device_class :=
      if txt_mapping then none
      else if unit = "°C".data then some .TEMPERATURE
      else if unit = "W".data then some .POWER
      else if unit = "Wh".data then some .ENERGY
      else none
    attr_state_class :=
      if txt_mapping then none
      else if state_class = "total".data then some .TOTAL
      else if state_class = "total_increasing".data then some .TOTAL_INCREASING
      else if state_class = "measurement".data then some .MEASUREMENT
      else none
    attr_native_unit_of_measurement := if txt_mapping then none else some unit
    attr_suggested_display_precision := if txt_mapping then none else precision }

/-- The `name` property: under legacy naming with a `sensor_overrides` table,
a truthy override for the current `_sensor_id` overwrites `_sensor_id` and is
returned; otherwise the stored `_attr_name` is returned.  The result pairs the
(possibly mutated) sensor state with the reported display name. -/
def LambdaSensor.nameProp (s : LambdaSensor) (coord : Coordinator) :
    LambdaSensor × Str :=
  let legacy := coord.entry_data.use_legacy_modbus_names.getD false
  match coord.sensor_overrides with
  | some ovs =>
    if legacy then
      match pyGet ovs s.sensor_id with
      | some ov => if ov ≠ [] then ({ s with sensor_id := ov }, ov) else (s, s.attr_name)
      | none => (s, s.attr_name)
    else (s, s.attr_name)
  | none => (s, s.attr_name)

/-- Derivation of the state-mapping table name from the display name and the
device type (`native_value`, state-sensor branch): when the device type is a
nonempty string whose uppercase form occurs in the display name, the first
whitespace-separated token of the name is dropped; then the remainder is
uppercased, spaces and hyphens become underscores, and the uppercase device
type plus an underscore is prepended. -/
def mappingName (attr_name dt : Str) : Str :=
  let base1 :=
    if dt ≠ [] ∧ pyUpper dt <:+: attr_name then
      pyJoinSpace (pySplitWs attr_name).tail
    else attr_name
  pyUpper dt ++ "_".data ++
    pyReplaceChar (pyReplaceChar (pyUpper base1) ' ' '_') '-' '_'

/-- Modelled from the spec: the state-mapping tables (`HP_OPERATING_STATE`,
...) live in `const_mapping.py`, which is not under `src/`; the module-level
`globals()` dictionary is therefore modelled as a partial map from names to
entries.  A `table` entry is an enum-to-label dict; `nonMapping` stands for a
module global that is not a dict, on which `.get` raises (landing in the
`except` branch of `native_value`). -/
inductive GlobalEntry where
  | table (m : List (Int × Str))
  | nonMapping
deriving DecidableEq

/-- Outcome of the `native_value` property: Python `None` (`absent`), a float,
a string, or a raised exception. -/
inductive NativeValue where
  | absent
  | num (q : ℚ)
  | text (s : Str)
  | exn (e : Str)
deriving DecidableEq

/-- The `native_value` property: absent on a missing/empty snapshot or missing
key; for a state sensor, integer coercion then mapping-table lookup with
placeholder labels on failure (an absent `device_type` raises
`AttributeError` before the guarded lookup); for a plain sensor, float
coercion with absence on failure. -/
def LambdaSensor.native_value (s : LambdaSensor)
    (globalsMap : Str → Option GlobalEntry)
    (data : Option (List (Str × RawValue))) : NativeValue :=
  match data with
  | none => .absent
  | some d =>
    if d = [] then .absent
    else
      match pyGet d s.sensor_id with
      | none => .absent
      | some value =>
        if s.is_state_sensor then
          match pyFloat value with
          | none => .text ("Unknown state (".data ++ pyStrOfRaw value ++ ")".data)
          | some q =>
            let numeric := pyInt q
            match s.device_type with
            | none => .exn ("AttributeError".data)
            | some dt =>
              match globalsMap (mappingName s.attr_name dt) with
              | some (.table m) =>
                .text ((pyGet m numeric).getD
                  ("Unknown state (".data ++ intStr numeric ++ ")".data))
              | some .nonMapping =>
                .text ("Error loading mappings (".data ++ intStr numeric ++ ")".data)
              | none =>
                .text ("Unknown mapping for state (".data ++ intStr numeric ++ ")".data)
        else
          match pyFloat value with
          | some q => .num q
          | none => .absent

/-- Device-class inference shared by both enumeration paths: an explicit
device class wins; otherwise the unit strings `°C`, `W`, `Wh` select
temperature, power, energy. -/
def inferDeviceClass (info : SensorInfo) : Option SensorDeviceClass :=
  if info.device_class = none ∧ info.unit = some ("°C".data) then some .TEMPERATURE
  else if info.device_class = none ∧ info.unit = some ("W".data) then some .POWER
  else if info.device_class = none ∧ info.unit = some ("Wh".data) then some .ENERGY
  else info.device_class

/-- Opening brace character, written by code point to keep it out of string
literals. -/
def lbraceChar : Char := Char.ofNat 123

/-- Closing brace character. -/
def rbraceChar : Char := Char.ofNat 125

/-- Modelled from the spec: the heating-circuit Climate templates (in
`const.py`, not under `src/`) carry a format string rendered with the instance
index; `str.format(idx)` is modelled as replacing each empty placeholder with
the decimal index. -/
def pyFormat (tpl : Str) (idx : Nat) : Str :=
  pyReplace [lbraceChar, rbraceChar] (natStr idx) tpl

/-- Naming resolution and construction for one templated sensor
(`async_setup_entry`, per-instance loop body after the disabled check): a
truthy legacy override sets the display name and the `name_prefix`-based
entity/unique ids while keeping the original data key as `sensor_id`; the
heating-circuit Climate branch formats the template name with the index;
otherwise the display name is the uppercase prefix, index and template name. -/
def buildTemplatedSensor (use_legacy : Bool) (namePfx : Str)
    (overrides : Option (List (Str × Str)))
    (pfx : Str) (idx : Nat) (sensor_id : Str) (info : SensorInfo)
    (address : Nat) : LambdaSensor :=
  let device_class := inferDeviceClass info
  let override_name : Option Str :=
    match overrides with
    | some ovs =>
      if use_legacy then pyGet ovs (pfx ++ natStr idx ++ "_".data ++ sensor_id)
      else none
    | none => none
  let sidElse := pfx ++ natStr idx ++ "_".data ++ sensor_id
  let nameElse : Str :=
    if pfx = "hc".data ∧ info.device_type = some ("Climate".data) then
      pyFormat info.name idx
    else pyUpper pfx ++ natStr idx ++ " ".data ++ info.name
  let entityElse : Str :=
    if use_legacy then
      "sensor.".data ++ namePfx ++ "_".data ++ pfx ++ natStr idx ++ "_".data ++ sensor_id
    else "sensor.".data ++ sidElse
  let uniqueElse := pyReplace ("sensor.".data) [] entityElse
  let quad : Str × Str × Str × Str :=
    match override_name with
    | some ov =>
      if ov ≠ [] then
        (ov, sidElse,
         "sensor.".data ++ namePfx ++ "_".data ++ ov,
         namePfx ++ "_".data ++ ov)
      else (nameElse, sidElse, entityElse, uniqueElse)
    | none => (nameElse, sidElse, entityElse, uniqueElse)
  let device_type_tag : Option Str :=
    if pfx ∈ ["hp".data, "boil".data, "hc".data, "buff".data, "sol".data] then
      some (pyUpper pfx)
    else some (info.device_type.getD ("main".data))
  LambdaSensor.init quad.2.1 quad.1 (info.unit.getD []) address
    (info.scale.getD 1) (info.state_class.getD []) device_class
    info.relative_address info.data_type device_type_tag
    (info.txt_mapping.getD false) info.precision
    (some quad.2.2.1) (some quad.2.2.2)

/-- Enumeration of the sensors of one `(prefix, count, template)` triple: for
each instance index `1..count`, each template entry whose absolute address
(instance base plus relative address) is not disabled yields one sensor;
disabled entries are skipped with no error. -/
def enumTriple (disabled : Nat → Bool)
    (generate_base_addresses : Str → Nat → Nat → Nat)
    (use_legacy : Bool) (namePfx : Str) (overrides : Option (List (Str × Str)))
    (pfx : Str) (count : Nat)
    (template : List (Str × SensorInfo)) : List LambdaSensor :=
  (List.range' 1 count).flatMap fun idx =>
    let base := generate_base_addresses pfx count idx
    template.filterMap fun kv =>
      let address := base + kv.2.relative_address
      if disabled address then none
      else some (buildTemplatedSensor use_legacy namePfx overrides pfx idx kv.1 kv.2 address)

/-- Construction of one general (`SENSOR_TYPES`) sensor after the disabled
check: under legacy naming a declared `override_name` key becomes both the
display name and the sensor id; the entity id carries the `name_prefix` only
under legacy naming; no unique id is passed to the constructor. -/
def buildGeneralSensor (use_legacy : Bool) (namePfx : Str)
    (sensor_id : Str) (info : SensorInfo) : LambdaSensor :=
  let device_class := inferDeviceClass info
  let ns : Str × Str :=
    match info.override_name with
    | some ov => if use_legacy then (ov, ov) else (info.name, sensor_id)
    | none => (info.name, sensor_id)
  let entity_id : Str :=
    if use_legacy then "sensor.".data ++ namePfx ++ "_".data ++ ns.2
    else "sensor.".data ++ ns.2
  LambdaSensor.init ns.2 ns.1 (info.unit.getD []) info.address
    (info.scale.getD 1) (info.state_class.getD []) device_class
    info.address info.data_type info.device_type
    (info.txt_mapping.getD false) info.precision
    (some entity_id) none

/-- Configured heat-pump count (`entry.data.get("num_hps", 1)`). -/
def cfgNumHps (e : EntryData) : Nat := e.num_hps.getD 1

/-- Configured boiler count (`entry.data.get("num_boil", 1)`). -/
def cfgNumBoil (e : EntryData) : Nat := e.num_boil.getD 1

/-- Configured buffer count (`entry.data.get("num_buff", 0)`). -/
def cfgNumBuff (e : EntryData) : Nat := e.num_buff.getD 0

/-- Configured solar count (`entry.data.get("num_sol", 0)`). -/
def cfgNumSol (e : EntryData) : Nat := e.num_sol.getD 0

/-- Configured heating-circuit count (`entry.data.get("num_hc", 1)`). -/
def cfgNumHc (e : EntryData) : Nat := e.num_hc.getD 1

/-- Configured legacy-naming switch (default `False`). -/
def cfgLegacy (e : EntryData) : Bool := e.use_legacy_modbus_names.getD false

/-- Configured installation name prefix: the `name` option lowercased with
spaces removed. -/
def cfgNamePfx (e : EntryData) : Str :=
  pyReplace (" ".data) [] (pyLower (e.name.getD []))

/-- The sensor enumeration of `async_setup_entry`: the five per-instance
device-type templates in order (heat pump, boiler, buffer, solar, heating
circuit), followed by the general `SENSOR_TYPES` sensors. -/
def async_setup_entry (entry : EntryData) (coord : Coordinator)
    (generate_base_addresses : Str → Nat → Nat → Nat)
    (hpT boilT buffT solT hcT generalT : List (Str × SensorInfo)) :
    List LambdaSensor :=
  let legacy := cfgLegacy entry
  let np := cfgNamePfx entry
  let run := enumTriple coord.is_register_disabled generate_base_addresses
    legacy np coord.sensor_overrides
  run ("hp".data) (cfgNumHps entry) hpT ++
  run ("boil".data) (cfgNumBoil entry) boilT ++
  run ("buff".data) (cfgNumBuff entry) buffT ++
  run ("sol".data) (cfgNumSol entry) solT ++
  run ("hc".data) (cfgNumHc entry) hcT ++
  generalT.filterMap fun kv =>
    if coord.is_register_disabled kv.2.address then none
    else some (buildGeneralSensor legacy np kv.1 kv.2)

/-- The shape of a per-instance data key: prefix, decimal index, underscore,
template key. -/
def mkId (pfx : Str) (idx : Nat) (key : Str) : Str :=
  pfx ++ natStr idx ++ "_".data ++ key

/-- The five structural device-type prefixes. -/
def fivePrefixes : List Str :=
  ["hp".data, "boil".data, "buff".data, "sol".data, "hc".data]

/-- All data-key ids a (prefix, count, template) triple can generate: one
`mkId` per instance index and template key. -/
def fullIds (pfx : Str) (count : Nat) (template : List (Str × SensorInfo)) :
    List Str :=
  (List.range' 1 count).flatMap fun idx =>
    template.map fun kv => mkId pfx idx kv.1

/-- The mapping-key derivation as the claim states it: the leading token is
stripped when and only when the display name begins with the uppercase
device-type token followed by a (nonempty, all-digit) index; then the
remainder is uppercased, spaces and hyphens become underscores, and the
uppercase device type plus an underscore is prepended. -/
def mappingNameSpec (attr_name dt : Str) : Str :=
  let toks := pySplitWs attr_name
  let headTok := toks.headD []
  let idxPart := headTok.drop (pyUpper dt).length
  let beginsWithDevTok : Bool :=
    decide (pyUpper dt <+: headTok) && !idxPart.isEmpty && idxPart.all Char.isDigit
  let base := if beginsWithDevTok then pyJoinSpace toks.tail else attr_name
  pyUpper dt ++ "_".data ++
    pyReplaceChar (pyReplaceChar (pyUpper base) ' ' '_') '-' '_'

/-- The mapping-key derivation as amended: the first whitespace-separated
token of the display name is dropped whenever the device type is nonempty and
its uppercase form occurs anywhere in the name as a substring (regardless of
position or of a following index); the rest of the derivation is unchanged. -/
def mappingNameAmendedSpec (attr_name dt : Str) : Str :=
  let base :=
    if !dt.isEmpty && decide (pyUpper dt <:+: attr_name) then
      pyJoinSpace (pySplitWs attr_name).tail
    else attr_name
  pyUpper dt ++ "_".data ++
    pyReplaceChar (pyReplaceChar (pyUpper base) ' ' '_') '-' '_'

/-! ### Concrete fixtures for counterexamples and witnesses -/

/-- A heat-pump template entry: flow temperature at relative address 5. -/
def flowTempInfo : SensorInfo :=
  { name := "Flow Temp".data, relative_address := 5, unit := some ("°C".data) }

/-- Legacy-mode config with one heat pump and installation name `lambda`. -/
def c1Entry : EntryData :=
  { num_hps := some 1, num_boil := some 0, num_buff := some 0,
    num_sol := some 0, num_hc := some 0,
    use_legacy_modbus_names := some true, name := some ("lambda".data) }

/-- Coordinator for the C1 fixture: an override mapping `hp1_flow_temp` to
`supply_temp`, nothing disabled. -/
def c1Coord : Coordinator :=
  { entry_data := c1Entry
    sensor_overrides := some [("hp1_flow_temp".data, "supply_temp".data)]
    data := none
    is_register_disabled := fun _ => false }

/-- The enumeration of the C1 fixture. -/
def c1Run : List LambdaSensor :=
  async_setup_entry c1Entry c1Coord (fun _ _ _ => 1000)
    [("flow_temp".data, flowTempInfo)] [] [] [] [] []

/-- Coordinator for the C2 counterexample: two distinct heat-pump keys whose
overrides carry the same name. -/
def c2Coord : Coordinator :=
  { entry_data := c1Entry
    sensor_overrides := some
      [("hp1_a".data, "dup".data), ("hp1_b".data, "dup".data)]
    data := none
    is_register_disabled := fun _ => false }

/-- The enumeration of the C2 counterexample fixture: a two-entry heat-pump
template under the colliding overrides. -/
def c2Run : List LambdaSensor :=
  async_setup_entry c1Entry c2Coord (fun _ _ _ => 1000)
    [("a".data, { name := "A".data, relative_address := 0 }),
     ("b".data, { name := "B".data, relative_address := 1 })] [] [] [] [] []

/-- A sensor whose data key `a` has an override entry. -/
def c3Sensor : LambdaSensor :=
  LambdaSensor.init ("a".data) ("Orig".data) [] 0 1 [] none 0 none none
    false none none none

/-- Coordinator for the C3 fixture: legacy naming, override table sending `a`
to `b` (and `b` nowhere). -/
def c3Coord : Coordinator :=
  { entry_data := { use_legacy_modbus_names := some true }
    sensor_overrides := some [("a".data, "b".data)]
    data := none
    is_register_disabled := fun _ => false }

/-- A txt_mapping sensor constructed with no device type (as the general
enumeration path does when the template entry lacks `device_type`). -/
def c4Sensor : LambdaSensor :=
  LambdaSensor.init ("amb".data) ("Amb State".data) [] 0 1 [] none 0 none none
    true none none none

/-- A txt_mapping sensor with device type `HP` and display name
`HP1 Operating State`. -/
def c4HpSensor : LambdaSensor :=
  LambdaSensor.init ("hp1_operating_state".data) ("HP1 Operating State".data)
    [] 0 1 [] none 0 none (some ("HP".data)) true none none none

/-- Modern-naming config with one heat pump. -/
def c2wEntry : EntryData :=
  { num_hps := some 1, num_boil := some 0, num_buff := some 0,
    num_sol := some 0, num_hc := some 0,
    use_legacy_modbus_names := some false, name := some ("lambda".data) }

/-- Coordinator for the C2 witness: no overrides, nothing disabled. -/
def c2wCoord : Coordinator :=
  { entry_data := c2wEntry
    sensor_overrides := none
    data := none
    is_register_disabled := fun _ => false }

/-- A plain (non-state) sensor with data key `x`. -/
def c8Sensor : LambdaSensor :=
  LambdaSensor.init ("x".data) ("X".data) [] 0 1 [] none 0 none
    (some ("HP".data)) false none none none

/-- A two-entry heat-pump template (relative addresses 5 and 6). -/
def c7Template : List (Str × SensorInfo) :=
  [("flow_temp".data, flowTempInfo),
   ("return_temp".data,
     { name := "Return Temp".data, relative_address := 6,
       unit := some ("°C".data) })]

/-- Disabled-register predicate for the C7 witness: exactly address 1006. -/
def c7Disabled (a : Nat) : Bool := a = 1006

/-- The C7 witness enumeration: one instance based at 1000, so `return_temp`
(absolute address 1006) is skipped. -/
def c7Run : List LambdaSensor :=
  enumTriple c7Disabled (fun _ _ _ => 1000) false [] none ("hp".data) 1
    c7Template

/-- Fallback sensor used as the `headD` default in the C7 witness. -/
def c7Default : LambdaSensor :=
  LambdaSensor.init [] [] [] 0 1 [] none 0 none none false none none none

/-- A configuration map with every recognized option omitted. -/
def emptyEntry : EntryData := {}

/-- Coordinator over the empty configuration with nothing disabled. -/
def emptyCoord : Coordinator :=
  { entry_data := emptyEntry
    sensor_overrides := none
    data := none
    is_register_disabled := fun _ => false }

/-- Enumeration of a single-entry heat-pump template under the empty
configuration. -/
def c6Run : List LambdaSensor :=
  async_setup_entry emptyEntry emptyCoord (fun _ _ _ => 1000)
    [("flow_temp".data, flowTempInfo)] [] [] [] [] []

/-! ### Auxiliary lemmas about the string model -/

theorem data_hp : "hp".data = ['h', 'p'] := rfl

theorem data_boil : "boil".data = ['b', 'o', 'i', 'l'] := rfl

theorem data_buff : "buff".data = ['b', 'u', 'f', 'f'] := rfl

theorem data_sol : "sol".data = ['s', 'o', 'l'] := rfl

theorem data_hc : "hc".data = ['h', 'c'] := rfl

theorem data_underscore : "_".data = ['_'] := rfl

theorem data_sensor_dot : "sensor.".data = ['s', 'e', 'n', 's', 'o', 'r', '.'] := rfl

theorem pyReplaceAux_fuel (pat rep : Str) :
    ∀ (f₁ : Nat) (f₂ : Nat) (s : Str), s.length ≤ f₁ → s.length ≤ f₂ →
      pyReplaceAux pat rep f₁ s = pyReplaceAux pat rep f₂ s := by
  intro f₁
  induction f₁ with
  | zero =>
    intro f₂ s h1 _
    have hs : s = [] := List.length_eq_zero.mp (Nat.le_zero.mp h1)
    subst hs
    cases f₂ <;> rfl
  | succ n ih =>
    intro f₂ s h1 h2
    cases s with
    | nil => cases f₂ <;> rfl
    | cons c rest =>
      cases f₂ with
      | zero => simp at h2
      | succ m =>
        simp only [pyReplaceAux]
        split
        · next h =>
          have hp : 0 < pat.length := List.length_pos.mpr h.1
          congr 1
          apply ih
          · simp only [List.length_drop, List.length_cons]
            simp only [List.length_cons] at h1
            omega
          · simp only [List.length_drop, List.length_cons]
            simp only [List.length_cons] at h2
            omega
        · next h =>
          congr 1
          apply ih
          · simp only [List.length_cons] at h1; omega
          · simp only [List.length_cons] at h2; omega

theorem pyReplace_cons_eq (pat rep : Str) (c : Char) (rest : Str) :
    pyReplace pat rep (c :: rest) =
      if pat ≠ [] ∧ pat <+: (c :: rest) then
        rep ++ pyReplace pat rep ((c :: rest).drop pat.length)
      else c :: pyReplace pat rep rest := by
  show pyReplaceAux pat rep (rest.length + 1) (c :: rest) = _
  simp only [pyReplaceAux]
  split
  · next h =>
    have hp : 0 < pat.length := List.length_pos.mpr h.1
    congr 1
    apply pyReplaceAux_fuel
    · simp only [List.length_drop, List.length_cons]; omega
    · exact Nat.le_refl _
  · rfl

theorem pyReplace_of_notInfix (pat rep s : Str) (h : ¬ pat <:+: s) :
    pyReplace pat rep s = s := by
  induction s with
  | nil => rfl
  | cons c rest ih =>
    rw [pyReplace_cons_eq, if_neg, ih]
    · intro hin
      exact h (hin.trans (List.suffix_cons c rest).isInfix)
    · rintro ⟨_, hpre⟩
      exact h hpre.isInfix

theorem pyReplace_append_left (pat s : Str) (hne : pat ≠ []) :
    pyReplace pat [] (pat ++ s) = pyReplace pat [] s := by
  cases pat with
  | nil => exact absurd rfl hne
  | cons c cs =>
    rw [List.cons_append, pyReplace_cons_eq,
      if_pos ⟨by simp, by rw [← List.cons_append]; exact List.prefix_append _ _⟩,
      List.nil_append]
    congr 1
    simp

theorem notInfix_of_mem_notMem {pat s : Str} {c : Char}
    (hc : c ∈ pat) (hs : c ∉ s) : ¬ pat <:+: s :=
  fun h => hs (h.subset hc)

theorem pyReplace_sensor_dot (sid : Str) (h : '.' ∉ sid) :
    pyReplace ("sensor.".data) [] ("sensor.".data ++ sid) = sid := by
  rw [pyReplace_append_left _ _ (by rw [data_sensor_dot]; simp),
    pyReplace_of_notInfix]
  exact notInfix_of_mem_notMem (by rw [data_sensor_dot]; simp) h

theorem digitChar_isDigit : ∀ m, m < 10 → (Nat.digitChar m).isDigit = true := by
  decide

theorem toDigitsCore_mem (fuel : Nat) :
    ∀ (n : Nat) (acc : List Char) (c : Char),
      c ∈ Nat.toDigitsCore 10 fuel n acc → c ∈ acc ∨ c.isDigit = true := by
  induction fuel with
  | zero => intro n acc c h; exact Or.inl h
  | succ f ih =>
    intro n acc c h
    simp only [Nat.toDigitsCore] at h
    by_cases hn : n / 10 = 0
    · rw [if_pos hn] at h
      rcases List.mem_cons.mp h with rfl | h
      · exact Or.inr (digitChar_isDigit _ (Nat.mod_lt _ (by norm_num)))
      · exact Or.inl h
    · rw [if_neg hn] at h
      rcases ih (n / 10) _ c h with h' | h'
      · rcases List.mem_cons.mp h' with rfl | h''
        · exact Or.inr (digitChar_isDigit _ (Nat.mod_lt _ (by norm_num)))
        · exact Or.inl h''
      · exact Or.inr h'

theorem natStr_eq_core (n : Nat) : natStr n = Nat.toDigitsCore 10 (n + 1) n [] := rfl

theorem natStr_digits (n : Nat) : ∀ c ∈ natStr n, c.isDigit = true := by
  intro c hc
  rcases toDigitsCore_mem (n + 1) n [] c (natStr_eq_core n ▸ hc) with h | h
  · cases h
  · exact h

theorem toDigitsCore_acc (fuel : Nat) :
    ∀ (n : Nat) (acc : List Char),
      Nat.toDigitsCore 10 fuel n acc = Nat.toDigitsCore 10 fuel n [] ++ acc := by
  induction fuel with
  | zero => intro n acc; rfl
  | succ f ih =>
    intro n acc
    simp only [Nat.toDigitsCore]
    by_cases hn : n / 10 = 0
    · rw [if_pos hn, if_pos hn]; rfl
    · rw [if_neg hn, if_neg hn, ih (n / 10) [Nat.digitChar (n % 10)],
        ih (n / 10) (Nat.digitChar (n % 10) :: acc)]
      simp

theorem natStr_ne_nil (n : Nat) : natStr n ≠ [] := by
  rw [natStr_eq_core]
  simp only [Nat.toDigitsCore]
  by_cases hn : n / 10 = 0
  · rw [if_pos hn]; simp
  · rw [if_neg hn, toDigitsCore_acc]; simp

theorem underscore_not_mem_natStr (n : Nat) : '_' ∉ natStr n := by
  intro h
  have := natStr_digits n '_' h
  simp at this

theorem dot_not_mem_natStr (n : Nat) : '.' ∉ natStr n := by
  intro h
  have := natStr_digits n '.' h
  simp at this

theorem charVal_digitChar : ∀ m, m < 10 → charVal (Nat.digitChar m) = m := by
  decide

theorem digitsVal_append_singleton (l : Str) (c : Char) :
    digitsVal (l ++ [c]) = 10 * digitsVal l + charVal c := by
  simp [digitsVal, List.foldl_append]

theorem toDigitsCore_val (fuel : Nat) :
    ∀ n : Nat, n < 10 ^ fuel → digitsVal (Nat.toDigitsCore 10 fuel n []) = n := by
  induction fuel with
  | zero =>
    intro n h
    simp only [pow_zero, Nat.lt_one_iff] at h
    subst h
    rfl
  | succ f ih =>
    intro n h
    simp only [Nat.toDigitsCore]
    by_cases hn : n / 10 = 0
    · rw [if_pos hn]
      have hlt : n < 10 := by
        rcases Nat.lt_or_ge n 10 with h' | h'
        · exact h'
        · exact absurd hn (by
            have : 0 < n / 10 := Nat.div_pos h' (by norm_num)
            omega)
      show digitsVal [Nat.digitChar (n % 10)] = n
      have : digitsVal [Nat.digitChar (n % 10)] = charVal (Nat.digitChar (n % 10)) := by
        simp [digitsVal]
      rw [this, charVal_digitChar _ (Nat.mod_lt _ (by norm_num)), Nat.mod_eq_of_lt hlt]
    · rw [if_neg hn, toDigitsCore_acc, digitsVal_append_singleton,
        ih (n / 10) (by rw [pow_succ] at h; omega),
        charVal_digitChar _ (Nat.mod_lt _ (by norm_num))]
      omega

theorem digitsVal_natStr (n : Nat) : digitsVal (natStr n) = n := by
  rw [natStr_eq_core]
  refine toDigitsCore_val (n + 1) n ?_
  calc n < 10 ^ n := Nat.lt_pow_self (by norm_num) n
  _ ≤ 10 ^ (n + 1) := Nat.pow_le_pow_right (by norm_num) (Nat.le_succ n)

theorem natStr_inj {m n : Nat} (h : natStr m = natStr n) : m = n := by
  have hm := digitsVal_natStr m
  rw [h, digitsVal_natStr] at hm
  omega

theorem append_underscore_inj :
    ∀ (a b r s : Str), '_' ∉ a → '_' ∉ b →
      a ++ '_' :: r = b ++ '_' :: s → a = b ∧ r = s := by
  intro a
  induction a with
  | nil =>
    intro b r s _ hb h
    cases b with
    | nil =>
      simp only [List.nil_append, List.cons.injEq] at h
      exact ⟨rfl, h.2⟩
    | cons d ds =>
      simp only [List.nil_append, List.cons_append, List.cons.injEq] at h
      exact absurd (h.1 ▸ List.mem_cons_self d ds) hb
  | cons c cs ih =>
    intro b r s ha hb h
    cases b with
    | nil =>
      simp only [List.cons_append, List.nil_append, List.cons.injEq] at h
      exact absurd (h.1 ▸ List.mem_cons_self c cs) ha
    | cons d ds =>
      simp only [List.cons_append, List.cons.injEq] at h
      obtain ⟨hcd, htail⟩ := h
      obtain ⟨hab, hrs⟩ := ih ds r s
        (fun hm => ha (List.mem_cons_of_mem c hm))
        (fun hm => hb (List.mem_cons_of_mem d hm)) htail
      exact ⟨by rw [hcd, hab], hrs⟩

theorem five_append_inj :
    ∀ p ∈ fivePrefixes, ∀ q ∈ fivePrefixes, ∀ r s : Str,
      p ++ r = q ++ s → p = q ∧ r = s := by
  intro p hp q hq r s h
  fin_cases hp <;> fin_cases hq <;>
    simp_all [fivePrefixes, data_hp, data_boil, data_buff, data_sol, data_hc]

theorem mkId_inj :
    ∀ p ∈ fivePrefixes, ∀ q ∈ fivePrefixes, ∀ (i j : Nat) (k k' : Str),
      mkId p i k = mkId q j k' → p = q ∧ i = j ∧ k = k' := by
  intro p hp q hq i j k k' h
  unfold mkId at h
  rw [data_underscore] at h
  simp only [List.append_assoc, List.singleton_append] at h
  obtain ⟨hpq, h2⟩ := five_append_inj p hp q hq _ _ h
  obtain ⟨hij, hk⟩ := append_underscore_inj (natStr i) (natStr j) k k'
    (underscore_not_mem_natStr i) (underscore_not_mem_natStr j) h2
  exact ⟨hpq, natStr_inj hij, hk⟩

/-! ### Claim theorems -/

/-- C9: a sensor constructed with `txt_mapping` true exposes no native unit of
measurement, no device class, no state class and no suggested display
precision, whatever unit, device class, state class or precision the template
entry specified. -/
theorem C9_state_sensor_clears_presentation
    (sensor_id name unit : Str) (address : Nat) (scale : ℚ)
    (state_class : Str) (device_class : Option SensorDeviceClass)
    (relative_address : Nat) (data_type device_type : Option Str)
    (precision : Option ℚ) (entity_id unique_id : Option Str) :
    (LambdaSensor.init sensor_id name unit address scale state_class
        device_class relative_address data_type device_type true precision
        entity_id unique_id).attr_native_unit_of_measurement = none ∧
    (LambdaSensor.init sensor_id name unit address scale state_class
        device_class relative_address data_type device_type true precision
        entity_id unique_id).attr_device_class = none ∧
    (LambdaSensor.init sensor_id name unit address scale state_class
        device_class relative_address data_type device_type true precision
        entity_id unique_id).attr_state_class = none ∧
    (LambdaSensor.init sensor_id name unit address scale state_class
        device_class relative_address data_type device_type true precision
        entity_id unique_id).attr_suggested_display_precision = none :=
  ⟨rfl, rfl, rfl, rfl⟩

/-- C10: a general sensor is constructed without a unique id, so its unique id
is its final sensor id; under legacy naming the entity id carries the name
prefix while the unique id does not, so the unique id differs from the entity
id with the `sensor.` prefix stripped. -/
theorem C10_general_unique_id_omits_prefix (namePfx sensor_id : Str)
    (info : SensorInfo) :
    (buildGeneralSensor true namePfx sensor_id info).attr_unique_id =
      (buildGeneralSensor true namePfx sensor_id info).sensor_id ∧
    (buildGeneralSensor true namePfx sensor_id info).entity_id =
      "sensor.".data ++ namePfx ++ "_".data ++
        (buildGeneralSensor true namePfx sensor_id info).sensor_id ∧
    (buildGeneralSensor true namePfx sensor_id info).attr_unique_id ≠
      namePfx ++ "_".data ++
        (buildGeneralSensor true namePfx sensor_id info).sensor_id := by
  refine ⟨rfl, rfl, fun h => ?_⟩
  have h' : (buildGeneralSensor true namePfx sensor_id info).sensor_id =
      namePfx ++ "_".data ++
        (buildGeneralSensor true namePfx sensor_id info).sensor_id := h
  have hlen := congrArg List.length h'
  rw [data_underscore] at hlen
  simp only [List.length_append, List.length_cons, List.length_nil] at hlen
  omega

/-- C1 counterexample: with legacy naming, one heat pump, and an override
sending `hp1_flow_temp` to `supply_temp`, enumeration produces a sensor whose
display name, entity id and unique id use the override, but whose sensor_id is
still `hp1_flow_temp` — not the override name as the claim states. -/
theorem C1_counterexample :
    c1Run.map (fun s => s.sensor_id) = ["hp1_flow_temp".data] ∧
    c1Run.map (fun s => s.attr_name) = ["supply_temp".data] ∧
    "hp1_flow_temp".data ≠ "supply_temp".data := by
  refine ⟨by decide, by decide, by decide⟩

/-- C1 as amended: with legacy naming and a truthy override for the key
`prefix + index + underscore + sensor_id`, the produced sensor uses the
override as display name, keeps the original key as its sensor_id (the data
key), and uses entity id `sensor.` + name_prefix + `_` + override and unique
id name_prefix + `_` + override. -/
theorem C1_override_naming (namePfx : Str) (ovs : List (Str × Str))
    (pfx : Str) (idx : Nat) (sensor_id : Str) (info : SensorInfo)
    (address : Nat) (ov : Str)
    (hov : pyGet ovs (pfx ++ natStr idx ++ "_".data ++ sensor_id) = some ov)
    (hne : ov ≠ []) :
    (buildTemplatedSensor true namePfx (some ovs) pfx idx sensor_id info
        address).attr_name = ov ∧
    (buildTemplatedSensor true namePfx (some ovs) pfx idx sensor_id info
        address).sensor_id = pfx ++ natStr idx ++ "_".data ++ sensor_id ∧
    (buildTemplatedSensor true namePfx (some ovs) pfx idx sensor_id info
        address).entity_id = "sensor.".data ++ namePfx ++ "_".data ++ ov ∧
    (buildTemplatedSensor true namePfx (some ovs) pfx idx sensor_id info
        address).attr_unique_id = namePfx ++ "_".data ++ ov := by
  have hbuild : buildTemplatedSensor true namePfx (some ovs) pfx idx sensor_id
      info address =
      LambdaSensor.init (pfx ++ natStr idx ++ "_".data ++ sensor_id) ov
        (info.unit.getD []) address (info.scale.getD 1)
        (info.state_class.getD []) (inferDeviceClass info)
        info.relative_address info.data_type
        (if pfx ∈ ["hp".data, "boil".data, "hc".data, "buff".data, "sol".data]
          then some (pyUpper pfx)
          else some (info.device_type.getD ("main".data)))
        (info.txt_mapping.getD false) info.precision
        (some ("sensor.".data ++ namePfx ++ "_".data ++ ov))
        (some (namePfx ++ "_".data ++ ov)) := by
    simp only [buildTemplatedSensor, hov, ne_eq, hne, not_false_eq_true, if_pos]
  rw [hbuild]
  refine ⟨rfl, rfl, ?_, ?_⟩
  · simp only [LambdaSensor.init, pyOrStr]
    rw [if_neg (by simp)]
  · simp only [LambdaSensor.init, pyOrStr]
    rw [if_neg (by simp [data_underscore])]

/-- C1 witness: the amended statement applied to the override
`hp1_flow_temp -> supply_temp` with installation prefix `lambda`. -/
theorem C1_override_naming_witness :
    (buildTemplatedSensor true ("lambda".data)
        (some [("hp1_flow_temp".data, "supply_temp".data)]) ("hp".data) 1
        ("flow_temp".data) flowTempInfo 1005).attr_name = "supply_temp".data ∧
    (buildTemplatedSensor true ("lambda".data)
        (some [("hp1_flow_temp".data, "supply_temp".data)]) ("hp".data) 1
        ("flow_temp".data) flowTempInfo 1005).attr_unique_id =
      "lambda".data ++ "_".data ++ "supply_temp".data :=
  ⟨(C1_override_naming ("lambda".data)
      [("hp1_flow_temp".data, "supply_temp".data)] ("hp".data) 1
      ("flow_temp".data) flowTempInfo 1005 ("supply_temp".data)
      (by decide) (by decide)).1,
   (C1_override_naming ("lambda".data)
      [("hp1_flow_temp".data, "supply_temp".data)] ("hp".data) 1
      ("flow_temp".data) flowTempInfo 1005 ("supply_temp".data)
      (by decide) (by decide)).2.2.2⟩

/-- C3 counterexample: with the override table sending `a` to `b` (and `b`
nowhere), the first read of the name property reports the override `b`, but
the second read reports the original display name `Orig`, so the override name
does not remain the reported display name. -/
theorem C3_counterexample :
    (c3Sensor.nameProp c3Coord).2 = "b".data ∧
    ((c3Sensor.nameProp c3Coord).1.nameProp c3Coord).2 = "Orig".data ∧
    "Orig".data ≠ "b".data := by
  refine ⟨by decide, by decide, by decide⟩

/-- C3 as amended: with legacy naming active and a truthy override for the
current sensor_id, one invocation of the name accessor mutates sensor_id in
place to the override name and reports the override name; provided the
override name itself has no entry in the table, every subsequent invocation
leaves the state unchanged but reports the constructor-time display name, not
the override name. -/
theorem C3_override_one_way (s : LambdaSensor) (coord : Coordinator)
    (ovs : List (Str × Str)) (ov : Str)
    (hovs : coord.sensor_overrides = some ovs)
    (hleg : coord.entry_data.use_legacy_modbus_names.getD false = true)
    (hget : pyGet ovs s.sensor_id = some ov) (hne : ov ≠ [])
    (hfix : pyGet ovs ov = none) :
    (s.nameProp coord).1.sensor_id = ov ∧
    (s.nameProp coord).2 = ov ∧
    (s.nameProp coord).1.nameProp coord = ((s.nameProp coord).1, s.attr_name) := by
  have h1 : s.nameProp coord = ({ s with sensor_id := ov }, ov) := by
    unfold LambdaSensor.nameProp
    rw [hovs, hleg]
    simp only [if_true, hget, ne_eq, hne, not_false_eq_true, if_pos]
  refine ⟨by rw [h1], by rw [h1], ?_⟩
  rw [h1]
  unfold LambdaSensor.nameProp
  rw [hovs, hleg]
  simp only [if_true, hfix]

/-- C3 witness: the amended statement applied to the fixture sensor `a` with
override table sending `a` to `b`. -/
theorem C3_override_one_way_witness :
    (c3Sensor.nameProp c3Coord).1.sensor_id = "b".data ∧
    (c3Sensor.nameProp c3Coord).1.nameProp c3Coord =
      ((c3Sensor.nameProp c3Coord).1, c3Sensor.attr_name) :=
  ⟨(C3_override_one_way c3Sensor c3Coord [("a".data, "b".data)] ("b".data)
      rfl rfl (by decide) (by decide) (by decide)).1,
   (C3_override_one_way c3Sensor c3Coord [("a".data, "b".data)] ("b".data)
      rfl rfl (by decide) (by decide) (by decide)).2.2⟩

/-- C4 counterexample: a txt_mapping sensor constructed with no device type
(as the general path does when the template lacks `device_type`) raises
`AttributeError` from the value accessor even though its raw value `"2"`
coerces to an integer code — the accessor does not shield the caller from
every exception. -/
theorem C4_counterexample :
    c4Sensor.is_state_sensor = true ∧
    pyFloat (RawValue.str ("2".data)) = some 2 ∧
    c4Sensor.native_value (fun _ => none)
        (some [("amb".data, RawValue.str ("2".data))]) =
      NativeValue.exn ("AttributeError".data) := by
  refine ⟨by decide, by decide, by decide⟩

/-- C4 as amended: for a txt_mapping sensor with a present (non-null) device
type whose raw value coerces, the value accessor always returns a text label
(never an exception): a key with no table yields
`Unknown mapping for state (code)`, and a failure inside the guarded lookup
(a non-dict global) yields `Error loading mappings (code)`. -/
theorem C4_state_value_no_exception (s : LambdaSensor)
    (g : Str → Option GlobalEntry) (d : List (Str × RawValue))
    (v : RawValue) (q : ℚ) (dt : Str)
    (hst : s.is_state_sensor = true) (hdt : s.device_type = some dt)
    (hne : d ≠ []) (hget : pyGet d s.sensor_id = some v)
    (hq : pyFloat v = some q) :
    (∃ lbl, s.native_value g (some d) = .text lbl) ∧
    (g (mappingName s.attr_name dt) = none →
      s.native_value g (some d) =
        .text ("Unknown mapping for state (".data ++ intStr (pyInt q) ++
          ")".data)) ∧
    (g (mappingName s.attr_name dt) = some .nonMapping →
      s.native_value g (some d) =
        .text ("Error loading mappings (".data ++ intStr (pyInt q) ++
          ")".data)) := by
  have hval : s.native_value g (some d) =
      match g (mappingName s.attr_name dt) with
      | some (.table m) =>
        .text ((pyGet m (pyInt q)).getD
          ("Unknown state (".data ++ intStr (pyInt q) ++ ")".data))
      | some .nonMapping =>
        .text ("Error loading mappings (".data ++ intStr (pyInt q) ++ ")".data)
      | none =>
        .text ("Unknown mapping for state (".data ++ intStr (pyInt q) ++
          ")".data) := by
    unfold LambdaSensor.native_value
    simp only [hget, hst, hq, hdt, eq_self_iff_true, if_true]
    rw [if_neg hne]
  refine ⟨?_, fun hg => by rw [hval, hg], fun hg => by rw [hval, hg]⟩
  rcases hg : g (mappingName s.attr_name dt) with _ | entry
  · exact ⟨_, by rw [hval, hg]⟩
  · cases entry
    · exact ⟨_, by rw [hval, hg]⟩
    · exact ⟨_, by rw [hval, hg]⟩

/-- C4 witness: the amended statement applied to a heat-pump operating-state
sensor whose mapping table is absent from the modelled globals. -/
theorem C4_state_value_no_exception_witness :
    c4HpSensor.native_value (fun _ => none)
        (some [("hp1_operating_state".data, RawValue.str ("2".data))]) =
      NativeValue.text ("Unknown mapping for state (".data ++ intStr (pyInt 2) ++
        ")".data) :=
  (C4_state_value_no_exception c4HpSensor (fun _ => none)
    [("hp1_operating_state".data, RawValue.str ("2".data))]
    (RawValue.str ("2".data)) 2 ("HP".data)
    (by decide) (by decide) (by decide) (by decide) (by decide)).2.1 rfl

/-- C5 counterexample: for display name `Ambient HP Temp` and device type
`HP`, the code derives key `HP_HP_TEMP` (it drops the first token because
`HP` occurs as a substring anywhere), while the claim's begins-with-token rule
derives `HP_AMBIENT_HP_TEMP`. -/
theorem C5_counterexample :
    mappingName ("Ambient HP Temp".data) ("HP".data) = "HP_HP_TEMP".data ∧
    mappingNameSpec ("Ambient HP Temp".data) ("HP".data) =
      "HP_AMBIENT_HP_TEMP".data ∧
    mappingName ("Ambient HP Temp".data) ("HP".data) ≠
      mappingNameSpec ("Ambient HP Temp".data) ("HP".data) := by
  refine ⟨by decide, by decide, by decide⟩

/-- C5 as amended: the code drops the first whitespace-separated token of the
display name whenever the device type is nonempty and its uppercase form
occurs anywhere in the name as a substring (not only when the name begins with
the token followed by an index); the remainder is uppercased, spaces and
hyphens become underscores, and the uppercase device type plus underscore is
prepended.  The claim's example still holds: `HP1 Operating State` with device
type `HP` yields `HP_OPERATING_STATE`. -/
theorem C5_mapping_key_amended :
    (∀ n dt : Str, mappingName n dt = mappingNameAmendedSpec n dt) ∧
    mappingName ("HP1 Operating State".data) ("HP".data) =
      "HP_OPERATING_STATE".data := by
  constructor
  · intro n dt
    have hcond : (dt ≠ [] ∧ pyUpper dt <:+: n) ↔
        ((!dt.isEmpty && decide (pyUpper dt <:+: n)) = true) := by
      simp [List.isEmpty_iff]
    have hbase :
        (if dt ≠ [] ∧ pyUpper dt <:+: n then pyJoinSpace (pySplitWs n).tail
          else n) =
        (if (!dt.isEmpty && decide (pyUpper dt <:+: n)) = true then
          pyJoinSpace (pySplitWs n).tail else n) :=
      if_congr hcond rfl rfl
    simp only [mappingName, mappingNameAmendedSpec]
    rw [hbase]
  · decide

/-- C6 counterexample: with every count option omitted, the heat-pump and
boiler counts resolve to 1 (not 0), and a one-entry heat-pump template does
produce a sensor. -/
theorem C6_counterexample :
    cfgNumHps emptyEntry = 1 ∧ cfgNumBoil emptyEntry = 1 ∧
    c6Run.length = 1 := by
  refine ⟨by decide, by decide, by decide⟩

/-- C6 as amended: omitted count options default to 1 for heat pumps, boilers
and heating circuits, and to 0 for buffers and solar, so omitted buffer and
solar device types generate no sensors while omitted heat-pump and boiler
counts generate one instance each. -/
theorem C6_count_defaults (e : EntryData) :
    (e.num_hps = none → cfgNumHps e = 1) ∧
    (e.num_boil = none → cfgNumBoil e = 1) ∧
    (e.num_buff = none → cfgNumBuff e = 0) ∧
    (e.num_sol = none → cfgNumSol e = 0) ∧
    (e.num_hc = none → cfgNumHc e = 1) ∧
    (∀ (disabled : Nat → Bool) (gba : Str → Nat → Nat → Nat) (legacy : Bool)
      (np : Str) (ovs : Option (List (Str × Str)))
      (t : List (Str × SensorInfo)), e.num_buff = none →
        enumTriple disabled gba legacy np ovs ("buff".data) (cfgNumBuff e) t
          = []) ∧
    (∀ (disabled : Nat → Bool) (gba : Str → Nat → Nat → Nat) (legacy : Bool)
      (np : Str) (ovs : Option (List (Str × Str)))
      (t : List (Str × SensorInfo)), e.num_sol = none →
        enumTriple disabled gba legacy np ovs ("sol".data) (cfgNumSol e) t
          = []) := by
  refine ⟨fun h => by simp [cfgNumHps, h], fun h => by simp [cfgNumBoil, h],
    fun h => by simp [cfgNumBuff, h], fun h => by simp [cfgNumSol, h],
    fun h => by simp [cfgNumHc, h], ?_, ?_⟩
  · intro disabled gba legacy np ovs t h
    simp [enumTriple, cfgNumBuff, h]
  · intro disabled gba legacy np ovs t h
    simp [enumTriple, cfgNumSol, h]

theorem filterMap_ite_length {α β : Type} (p : α → Bool) (f : α → β)
    (l : List α) :
    (l.filterMap fun a => if p a then none else some (f a)).length =
      (l.filter fun a => !p a).length := by
  induction l with
  | nil => rfl
  | cons a t ih =>
    by_cases h : p a <;>
      simp [List.filterMap_cons, List.filter_cons, h, ih]

/-- C7: for every (prefix, count, template) triple and disabled predicate, the
enumeration yields exactly one sensor per instance index and template entry
whose absolute address (instance base plus relative address) is not disabled,
and no produced sensor has a disabled address; disabled entries are skipped
with no error. -/
theorem C7_enumeration_skips_disabled (disabled : Nat → Bool)
    (gba : Str → Nat → Nat → Nat) (legacy : Bool) (np : Str)
    (ovs : Option (List (Str × Str))) (pfx : Str) (count : Nat)
    (template : List (Str × SensorInfo)) :
    (enumTriple disabled gba legacy np ovs pfx count template).length =
      ((List.range' 1 count).map fun idx =>
        (template.filter fun kv =>
          !disabled (gba pfx count idx + kv.2.relative_address)).length).sum ∧
    ∀ s ∈ enumTriple disabled gba legacy np ovs pfx count template,
      disabled s.address = false := by
  constructor
  · simp only [enumTriple]
    rw [List.length_flatMap]
    congr 1
    apply List.map_congr_left
    intro idx _
    exact filterMap_ite_length
      (fun kv => disabled (gba pfx count idx + kv.2.relative_address))
      (fun kv => buildTemplatedSensor legacy np ovs pfx idx kv.1 kv.2
        (gba pfx count idx + kv.2.relative_address)) template
  · intro s hs
    simp only [enumTriple, List.mem_flatMap, List.mem_filterMap] at hs
    obtain ⟨idx, _, kv, _, heq⟩ := hs
    by_cases hdis : disabled (gba pfx count idx + kv.2.relative_address)
    · rw [if_pos hdis] at heq
      cases heq
    · rw [if_neg hdis] at heq
      have hs' := Option.some.inj heq
      subst hs'
      show disabled (gba pfx count idx + kv.2.relative_address) = false
      simpa using hdis

/-- C7 witness: the statement applied to a two-entry heat-pump template with
address 1006 disabled: the length equation counts one survivor, and the one
produced sensor's address is not disabled. -/
theorem C7_enumeration_skips_disabled_witness :
    c7Run.length =
      ((List.range' 1 1).map fun idx =>
        (c7Template.filter fun kv =>
          !c7Disabled ((fun _ _ _ => 1000) ("hp".data : Str) 1 idx +
            kv.2.relative_address)).length).sum ∧
    c7Disabled (c7Run.headD c7Default).address = false :=
  ⟨(C7_enumeration_skips_disabled c7Disabled (fun _ _ _ => 1000) false []
      none ("hp".data) 1 c7Template).1,
   (C7_enumeration_skips_disabled c7Disabled (fun _ _ _ => 1000) false []
      none ("hp".data) 1 c7Template).2 (c7Run.headD c7Default) (by decide)⟩

/-- C8: the value accessor is absent exactly when the snapshot is missing or
empty, the snapshot has no entry for the sensor id, or a non-state sensor's
raw value fails float coercion; when coercion succeeds for a non-state sensor
the parsed float is returned as-is (no re-scaling). -/
theorem C8_absent_exactly (s : LambdaSensor) (g : Str → Option GlobalEntry)
    (d : List (Str × RawValue)) :
    (s.native_value g none = .absent) ∧
    (s.native_value g (some []) = .absent) ∧
    (pyGet d s.sensor_id = none → s.native_value g (some d) = .absent) ∧
    (∀ v, pyGet d s.sensor_id = some v → s.is_state_sensor = false →
      (pyFloat v = none → s.native_value g (some d) = .absent) ∧
      (∀ q, pyFloat v = some q → s.native_value g (some d) = .num q)) ∧
    (s.native_value g (some d) = .absent →
      d = [] ∨ pyGet d s.sensor_id = none ∨
        (s.is_state_sensor = false ∧
          ∃ v, pyGet d s.sensor_id = some v ∧ pyFloat v = none)) := by
  by_cases hd : d = []
  · subst hd
    refine ⟨rfl, rfl, fun _ => rfl, ?_, fun _ => Or.inl rfl⟩
    intro v hv
    simp [pyGet] at hv
  · refine ⟨rfl, rfl, ?_, ?_, ?_⟩
    · intro h
      unfold LambdaSensor.native_value
      simp only [h]
      rw [if_neg hd]
    · intro v hv hstf
      constructor
      · intro hfl
        simp [LambdaSensor.native_value, hv, hstf, hfl, hd]
      · intro q hq
        simp [LambdaSensor.native_value, hv, hstf, hq, hd]
    · intro h
      rcases hv : pyGet d s.sensor_id with _ | v
      · exact Or.inr (Or.inl rfl)
      · by_cases hst : s.is_state_sensor = true
        · exfalso
          rcases hf : pyFloat v with _ | q
          · simp [LambdaSensor.native_value, hv, hst, hf, hd] at h
          · rcases hdt : s.device_type with _ | dt
            · simp [LambdaSensor.native_value, hv, hst, hf, hdt, hd] at h
            · rcases hg : g (mappingName s.attr_name dt) with _ | entry
              · simp [LambdaSensor.native_value, hv, hst, hf, hdt, hg, hd] at h
              · cases entry <;>
                  simp [LambdaSensor.native_value, hv, hst, hf, hdt, hg, hd]
                    at h
        · have hst' : s.is_state_sensor = false := by
            simpa using hst
          rcases hf : pyFloat v with _ | q
          · exact Or.inr (Or.inr ⟨hst', v, rfl, hf⟩)
          · exfalso
            simp [LambdaSensor.native_value, hv, hst', hf, hd] at h

/-- C8 witness: a plain sensor over a populated snapshot: the raw value
`"abc"` yields absence and the raw value `"2"` yields the parsed float 2. -/
theorem C8_absent_exactly_witness :
    (c8Sensor.native_value (fun _ => none)
        (some [("x".data, RawValue.str ("abc".data))]) = .absent) ∧
    (c8Sensor.native_value (fun _ => none)
        (some [("x".data, RawValue.str ("2".data))]) = .num 2) :=
  ⟨((C8_absent_exactly c8Sensor (fun _ => none)
      [("x".data, RawValue.str ("abc".data))]).2.2.2.1
      (RawValue.str ("abc".data)) (by decide) (by decide)).1 (by decide),
   ((C8_absent_exactly c8Sensor (fun _ => none)
      [("x".data, RawValue.str ("2".data))]).2.2.2.1
      (RawValue.str ("2".data)) (by decide) (by decide)).2 2 (by decide)⟩

/-- C6 witness: the amended statement applied to the empty configuration. -/
theorem C6_count_defaults_witness :
    cfgNumHps emptyEntry = 1 ∧
    enumTriple (fun _ => false) (fun _ _ _ => 0) false [] none ("buff".data)
      (cfgNumBuff emptyEntry) [] = [] :=
  ⟨(C6_count_defaults emptyEntry).1 rfl,
   (C6_count_defaults emptyEntry).2.2.2.2.2.1 (fun _ => false) (fun _ _ _ => 0)
     false [] none [] rfl⟩

/-! ### Unique-id lemmas for the enumeration in modern naming mode -/

theorem uid_templated_modern (np : Str) (ovs : Option (List (Str × Str)))
    (pfx : Str) (idx : Nat) (sid : Str) (info : SensorInfo) (addr : Nat)
    (hpfx : '.' ∉ pfx) (hsid : '.' ∉ sid) :
    (buildTemplatedSensor false np ovs pfx idx sid info addr).attr_unique_id =
      mkId pfx idx sid := by
  have hdot : '.' ∉ pfx ++ natStr idx ++ "_".data ++ sid := by
    rw [data_underscore]
    intro hmem
    rcases List.mem_append.mp hmem with h | h
    · rcases List.mem_append.mp h with h' | h'
      · rcases List.mem_append.mp h' with h'' | h''
        · exact hpfx h''
        · exact dot_not_mem_natStr idx h''
      · simp at h'
    · exact hsid h
  have hne : pfx ++ natStr idx ++ "_".data ++ sid ≠ [] := by
    rw [data_underscore]
    simp [List.append_eq_nil]
  have hover : buildTemplatedSensor false np ovs pfx idx sid info addr =
      buildTemplatedSensor false np none pfx idx sid info addr := by
    cases ovs <;> rfl
  rw [hover]
  show pyOrStr (some (pyReplace ("sensor.".data) []
      ("sensor.".data ++ (pfx ++ natStr idx ++ "_".data ++ sid))))
    (pfx ++ natStr idx ++ "_".data ++ sid) = mkId pfx idx sid
  rw [pyReplace_sensor_dot _ hdot]
  simp only [pyOrStr]
  rw [if_neg hne]
  rfl

theorem uid_general_modern (np sid : Str) (info : SensorInfo) :
    (buildGeneralSensor false np sid info).attr_unique_id = sid := by
  unfold buildGeneralSensor
  cases hov : info.override_name <;>
    simp [hov, LambdaSensor.init, pyOrStr]

theorem sublist_filterMap_ite {α β : Type} (p : α → Bool) (f : α → β)
    (l : List α) :
    (l.filterMap fun a => if p a then none else some (f a)).Sublist
      (l.map f) := by
  induction l with
  | nil => simp
  | cons a t ih =>
    by_cases h : p a
    · simp only [List.filterMap_cons, h, if_true, List.map_cons]
      exact ih.cons (f a)
    · simp only [List.filterMap_cons, h, if_false, List.map_cons]
      exact ih.cons₂ (f a)

theorem flatMap_sublist {α β : Type} (l : List α) (f g : α → List β)
    (h : ∀ a ∈ l, (f a).Sublist (g a)) :
    (l.flatMap f).Sublist (l.flatMap g) := by
  induction l with
  | nil => simp
  | cons a t ih =>
    simp only [List.flatMap_cons]
    exact (h a (List.mem_cons_self a t)).append
      (ih fun b hb => h b (List.mem_cons_of_mem a hb))

theorem fullIds_nodup (pfx : Str) (hp : pfx ∈ fivePrefixes) (count : Nat)
    (template : List (Str × SensorInfo))
    (hk : (template.map Prod.fst).Nodup) :
    (fullIds pfx count template).Nodup := by
  rw [fullIds, List.nodup_flatMap]
  constructor
  · intro i _
    have hmm : (template.map fun kv => mkId pfx i kv.1) =
        (template.map Prod.fst).map fun k => mkId pfx i k := by
      rw [List.map_map]
      rfl
    rw [hmm]
    exact hk.map_on fun x _ y _ hxy => (mkId_inj pfx hp pfx hp i i x y hxy).2.2
  · have hnr : (List.range' 1 count).Pairwise (· ≠ ·) := List.nodup_range' 1 count
    refine hnr.imp ?_
    intro a b hab x hx hy
    simp only [List.mem_map] at hx hy
    obtain ⟨kv, _, rfl⟩ := hx
    obtain ⟨kv', _, h'⟩ := hy
    exact hab (mkId_inj pfx hp pfx hp b a kv'.1 kv.1 h').2.1.symm

theorem fullIds_disjoint (p q : Str) (hp : p ∈ fivePrefixes)
    (hq : q ∈ fivePrefixes) (hne : p ≠ q) (c c' : Nat)
    (t t' : List (Str × SensorInfo)) :
    (fullIds p c t).Disjoint (fullIds q c' t') := by
  intro x hx hx'
  simp only [fullIds, List.mem_flatMap, List.mem_map] at hx hx'
  obtain ⟨i, _, kv, _, rfl⟩ := hx
  obtain ⟨j, _, kv', _, h⟩ := hx'
  exact hne (mkId_inj q hq p hp j i kv'.1 kv.1 h).1.symm

theorem fullIds_disjoint_general (p : Str) (hp : p ∈ fivePrefixes) (c : Nat)
    (t generalT : List (Str × SensorInfo))
    (hgensep : ∀ kv ∈ generalT, ∀ q ∈ fivePrefixes, ∀ (i : Nat) (k : Str),
      (kv : Str × SensorInfo).1 ≠ mkId q i k) :
    (fullIds p c t).Disjoint (generalT.map Prod.fst) := by
  intro x hx hg
  simp only [fullIds, List.mem_flatMap, List.mem_map] at hx hg
  obtain ⟨i, _, kv, _, rfl⟩ := hx
  obtain ⟨kv', hkv', h⟩ := hg
  exact hgensep kv' hkv' p hp i kv.1 h

theorem mapUid_enumTriple_sublist (disabled : Nat → Bool)
    (gba : Str → Nat → Nat → Nat) (np : Str)
    (ovs : Option (List (Str × Str))) (pfx : Str) (count : Nat)
    (template : List (Str × SensorInfo))
    (hpfx : '.' ∉ pfx)
    (hdot : ∀ kv ∈ template, '.' ∉ (kv : Str × SensorInfo).1) :
    ((enumTriple disabled gba false np ovs pfx count template).map
      fun s => s.attr_unique_id).Sublist (fullIds pfx count template) := by
  simp only [enumTriple, fullIds]
  rw [List.map_flatMap]
  apply flatMap_sublist
  intro idx _
  rw [List.map_filterMap]
  have hcongr : template.filterMap (fun kv =>
      Option.map (fun s => s.attr_unique_id)
        (if disabled (gba pfx count idx + kv.2.relative_address) then none
         else some (buildTemplatedSensor false np ovs pfx idx kv.1 kv.2
           (gba pfx count idx + kv.2.relative_address)))) =
      template.filterMap (fun kv =>
        if disabled (gba pfx count idx + kv.2.relative_address) then none
        else some (mkId pfx idx kv.1)) := by
    apply List.filterMap_congr
    intro kv hkv
    by_cases h : disabled (gba pfx count idx + kv.2.relative_address)
    · simp [h]
    · simp [h, uid_templated_modern np ovs pfx idx kv.1 kv.2 _ hpfx
        (hdot kv hkv)]
  rw [hcongr]
  exact sublist_filterMap_ite
    (fun kv => disabled (gba pfx count idx + kv.2.relative_address))
    (fun kv => mkId pfx idx kv.1) template

theorem mapUid_general_sublist (disabled : Nat → Bool) (np : Str)
    (generalT : List (Str × SensorInfo)) :
    ((generalT.filterMap fun kv =>
        if disabled kv.2.address then none
        else some (buildGeneralSensor false np kv.1 kv.2)).map
      fun s => s.attr_unique_id).Sublist (generalT.map Prod.fst) := by
  rw [List.map_filterMap]
  have hcongr : generalT.filterMap (fun kv =>
      Option.map (fun s => s.attr_unique_id)
        (if disabled kv.2.address then none
         else some (buildGeneralSensor false np kv.1 kv.2))) =
      generalT.filterMap (fun kv =>
        if disabled kv.2.address then none else some kv.1) := by
    apply List.filterMap_congr
    intro kv _
    by_cases h : disabled kv.2.address
    · simp [h]
    · simp [h, uid_general_modern]
  rw [hcongr]
  exact sublist_filterMap_ite (fun kv => disabled kv.2.address) Prod.fst
    generalT

/-- C2 counterexample: with legacy naming and two overrides carrying the same
value `dup`, one enumeration run produces two sensors with the same unique id
`lambda_dup`. -/
theorem C2_counterexample :
    c2Run.map (fun s => s.attr_unique_id) =
      ["lambda_dup".data, "lambda_dup".data] ∧
    ¬ (c2Run.map fun s => s.attr_unique_id).Nodup := by
  refine ⟨by decide, by decide⟩

/-- C2 as amended: uniqueness of unique ids can fail for degenerate
configurations (see the counterexample); it holds whenever legacy naming is
off, each device-type template has duplicate-free keys containing no dot,
the general sensor ids are duplicate-free, and no general sensor id has the
generated `prefix + index + underscore + key` shape. -/
theorem C2_unique_ids_modern (entry : EntryData) (coord : Coordinator)
    (gba : Str → Nat → Nat → Nat)
    (hpT boilT buffT solT hcT generalT : List (Str × SensorInfo))
    (hleg : cfgLegacy entry = false)
    (hkeys : ∀ t ∈ [hpT, boilT, buffT, solT, hcT], (List.map Prod.fst t).Nodup)
    (hdots : ∀ t ∈ [hpT, boilT, buffT, solT, hcT], ∀ kv ∈ t,
      '.' ∉ (kv : Str × SensorInfo).1)
    (hgen : (generalT.map Prod.fst).Nodup)
    (hgensep : ∀ kv ∈ generalT, ∀ p ∈ fivePrefixes, ∀ (i : Nat) (k : Str),
      (kv : Str × SensorInfo).1 ≠ mkId p i k) :
    ((async_setup_entry entry coord gba hpT boilT buffT solT hcT
        generalT).map fun s => s.attr_unique_id).Nodup := by
  simp only [async_setup_entry, hleg, List.map_append]
  have h1 := mapUid_enumTriple_sublist coord.is_register_disabled gba
    (cfgNamePfx entry) coord.sensor_overrides ("hp".data) (cfgNumHps entry)
    hpT (by decide) (hdots hpT (by simp))
  have h2 := mapUid_enumTriple_sublist coord.is_register_disabled gba
    (cfgNamePfx entry) coord.sensor_overrides ("boil".data) (cfgNumBoil entry)
    boilT (by decide) (hdots boilT (by simp))
  have h3 := mapUid_enumTriple_sublist coord.is_register_disabled gba
    (cfgNamePfx entry) coord.sensor_overrides ("buff".data) (cfgNumBuff entry)
    buffT (by decide) (hdots buffT (by simp))
  have h4 := mapUid_enumTriple_sublist coord.is_register_disabled gba
    (cfgNamePfx entry) coord.sensor_overrides ("sol".data) (cfgNumSol entry)
    solT (by decide) (hdots solT (by simp))
  have h5 := mapUid_enumTriple_sublist coord.is_register_disabled gba
    (cfgNamePfx entry) coord.sensor_overrides ("hc".data) (cfgNumHc entry)
    hcT (by decide) (hdots hcT (by simp))
  have hg := mapUid_general_sublist coord.is_register_disabled
    (cfgNamePfx entry) generalT
  have hsub := ((((h1.append h2).append h3).append h4).append h5).append hg
  refine hsub.nodup ?_
  have m1 : ("hp".data : Str) ∈ fivePrefixes := by decide
  have m2 : ("boil".data : Str) ∈ fivePrefixes := by decide
  have m3 : ("buff".data : Str) ∈ fivePrefixes := by decide
  have m4 : ("sol".data : Str) ∈ fivePrefixes := by decide
  have m5 : ("hc".data : Str) ∈ fivePrefixes := by decide
  have n1 := fullIds_nodup _ m1 (cfgNumHps entry) hpT (hkeys hpT (by simp))
  have n2 := fullIds_nodup _ m2 (cfgNumBoil entry) boilT (hkeys boilT (by simp))
  have n3 := fullIds_nodup _ m3 (cfgNumBuff entry) buffT (hkeys buffT (by simp))
  have n4 := fullIds_nodup _ m4 (cfgNumSol entry) solT (hkeys solT (by simp))
  have n5 := fullIds_nodup _ m5 (cfgNumHc entry) hcT (hkeys hcT (by simp))
  refine List.nodup_append.mpr ⟨?_, ?_, ?_⟩
  · refine List.nodup_append.mpr ⟨?_, n5, ?_⟩
    · refine List.nodup_append.mpr ⟨?_, n4, ?_⟩
      · refine List.nodup_append.mpr ⟨?_, n3, ?_⟩
        · exact List.nodup_append.mpr ⟨n1, n2,
            fullIds_disjoint _ _ m1 m2 (by decide) _ _ _ _⟩
        · exact List.disjoint_append_left.mpr
            ⟨fullIds_disjoint _ _ m1 m3 (by decide) _ _ _ _,
             fullIds_disjoint _ _ m2 m3 (by decide) _ _ _ _⟩
      · exact List.disjoint_append_left.mpr
          ⟨List.disjoint_append_left.mpr
            ⟨fullIds_disjoint _ _ m1 m4 (by decide) _ _ _ _,
             fullIds_disjoint _ _ m2 m4 (by decide) _ _ _ _⟩,
           fullIds_disjoint _ _ m3 m4 (by decide) _ _ _ _⟩
    · exact List.disjoint_append_left.mpr
        ⟨List.disjoint_append_left.mpr
          ⟨List.disjoint_append_left.mpr
            ⟨fullIds_disjoint _ _ m1 m5 (by decide) _ _ _ _,
             fullIds_disjoint _ _ m2 m5 (by decide) _ _ _ _⟩,
           fullIds_disjoint _ _ m3 m5 (by decide) _ _ _ _⟩,
         fullIds_disjoint _ _ m4 m5 (by decide) _ _ _ _⟩
  · exact hgen
  · exact List.disjoint_append_left.mpr
      ⟨List.disjoint_append_left.mpr
        ⟨List.disjoint_append_left.mpr
          ⟨List.disjoint_append_left.mpr
            ⟨fullIds_disjoint_general _ m1 _ _ _ hgensep,
             fullIds_disjoint_general _ m2 _ _ _ hgensep⟩,
           fullIds_disjoint_general _ m3 _ _ _ hgensep⟩,
         fullIds_disjoint_general _ m4 _ _ _ hgensep⟩,
       fullIds_disjoint_general _ m5 _ _ _ hgensep⟩

/-- C2 witness: the amended statement applied to a modern-naming run with a
one-entry heat-pump template and one general sensor. -/
theorem C2_unique_ids_modern_witness :
    ((async_setup_entry c2wEntry c2wCoord (fun _ _ _ => 1000)
        [("flow_temp".data, flowTempInfo)] [] [] [] []
        [("ambient_temp".data, flowTempInfo)]).map
      fun s => s.attr_unique_id).Nodup :=
  C2_unique_ids_modern c2wEntry c2wCoord (fun _ _ _ => 1000)
    [("flow_temp".data, flowTempInfo)] [] [] [] []
    [("ambient_temp".data, flowTempInfo)]
    (by decide)
    (by intro t ht; fin_cases ht <;> decide)
    (by intro t ht; fin_cases ht <;> decide)
    (by decide)
    (by
      intro kv hkv p hp i k heq
      fin_cases hkv
      fin_cases hp <;>
        simp [mkId, data_hp, data_boil, data_buff, data_sol, data_hc,
          List.append_assoc] at heq)

end LambdaWP
